import Mathlib

/-!
Verification of the PharmaFlow frontend offline subsystem: the offline
operation queue (offlineQueue slice + OfflineSyncService), the pharmaceutical
cache (cache slice + PharmaceuticalCacheService) and the realtime WebSocket
channel (webSocket slice + PharmaceuticalWebSocketService).

The embedding models JavaScript semantics explicitly where it matters:
timestamps are natural numbers (milliseconds), JS numbers holding byte counts
are integers, the 32-bit wrap-around of the checksum hash is taken modulo
2^32 with a signed reinterpretation, and string payloads stand for their JSON
serialization.
-/

/- ## JavaScript primitive operations -/

/-- Whether the first character list is an initial segment of the second. -/
def startsWithChars : List Char → List Char → Bool
  | [], _ => true
  | _ :: _, [] => false
  | p :: ps, c :: cs => p == c && startsWithChars ps cs

/-- Whether the needle occurs as a contiguous run of the haystack. -/
def containsChars : List Char → List Char → Bool
  | [], needle => needle.isEmpty
  | c :: cs, needle => startsWithChars needle (c :: cs) || containsChars cs needle

/-- JS String.prototype.includes: true iff the pattern occurs as a
substring. -/
def jsIncludes (s pat : String) : Bool := containsChars s.data pat.data

/-- Reinterpret an integer as a signed 32-bit value, as the JS expression
(hash & hash) does via ToInt32. -/
def toInt32 (n : ℤ) : ℤ :=
  let m := n % 4294967296
  if 2147483648 ≤ m then m - 4294967296 else m

/-- One step of the checksum loop: hash = ((hash << 5) - hash) + charCode,
followed by hash = hash & hash (the 32-bit truncation).  The shift operates
on the 32-bit value of hash; the incoming hash is already 32-bit. -/
def hashStep (h : ℤ) (c : ℕ) : ℤ := toInt32 (toInt32 (h * 32) - h + c)

/-- Digit character for base 36 (0-9 then a-z), as used by
Number.prototype.toString(36). -/
def base36Digit (d : ℕ) : Char :=
  if d < 10 then Char.ofNat (48 + d) else Char.ofNat (87 + d)

/-- Base-36 digit expansion of a natural number, most significant first.
The first argument is fuel; any fuel larger than the number of digits gives
the full expansion, and natToBase36 always supplies enough. -/
def natToBase36Go : ℕ → ℕ → List Char
  | 0, _ => []
  | fuel + 1, n => if n = 0 then [] else natToBase36Go fuel (n / 36) ++ [base36Digit (n % 36)]

/-- JS n.toString(36) for a natural number. -/
def natToBase36 (n : ℕ) : String :=
  if n = 0 then "0" else String.mk (natToBase36Go (n + 1) n)

/-- JS i.toString(36) for a (possibly negative) 32-bit integer. -/
def intToBase36 (i : ℤ) : String :=
  if i < 0 then "-" ++ natToBase36 i.natAbs else natToBase36 i.natAbs

/-- generateChecksum from the cache module: the classic shift-and-subtract
string hash over the JSON serialization, rendered in base 36.  The payload
string stands for its JSON serialization, and character codes are the
Unicode code points (faithful for BMP strings). -/
def generateChecksum (data : String) : String :=
  intToBase36 (data.data.foldl (fun h c => hashStep h c.toNat) 0)

/-- calculateDataSize from the cache module: the byte size of the Blob built
from the JSON serialization, i.e. the UTF-8 byte size of the string. -/
def calculateDataSize (data : String) : ℕ := data.utf8ByteSize

/- ## Offline operation queue (offlineQueue slice) -/

/-- OfflineOperationType: the closed set of queueable operation tags.  Each
constructor carries the enum member name; operationTypeValue below gives the
runtime string value of each member. -/
inductive OfflineOperationType where
  | CREATE_CUSTOMER
  | UPDATE_CUSTOMER
  | UPDATE_CUSTOMER_TIER
  | ASSIGN_TERRITORY
  | CREATE_DGDA_SUBMISSION
  | UPDATE_SUBMISSION_STATUS
  | UPLOAD_DOCUMENT
  | RECORD_CAMPAIGN_INTERACTION
  | UPDATE_CAMPAIGN_STATUS
  | LOG_MARKETING_ACTIVITY
  | SYNC_ANALYTICS_DATA
  | UPDATE_PERFORMANCE_METRICS
  | LOG_AUDIT_ENTRY
  deriving DecidableEq, BEq

/-- The runtime string value of each OfflineOperationType enum member, as
declared in the source (the values are lowercase snake case). -/
def operationTypeValue : OfflineOperationType → String
  | .CREATE_CUSTOMER => "create_customer"
  | .UPDATE_CUSTOMER => "update_customer"
  | .UPDATE_CUSTOMER_TIER => "update_customer_tier"
  | .ASSIGN_TERRITORY => "assign_territory"
  | .CREATE_DGDA_SUBMISSION => "create_dgda_submission"
  | .UPDATE_SUBMISSION_STATUS => "update_submission_status"
  | .UPLOAD_DOCUMENT => "upload_document"
  | .RECORD_CAMPAIGN_INTERACTION => "record_campaign_interaction"
  | .UPDATE_CAMPAIGN_STATUS => "update_campaign_status"
  | .LOG_MARKETING_ACTIVITY => "log_marketing_activity"
  | .SYNC_ANALYTICS_DATA => "sync_analytics_data"
  | .UPDATE_PERFORMANCE_METRICS => "update_performance_metrics"
  | .LOG_AUDIT_ENTRY => "log_audit_entry"

/-- OperationPriority enum (ordinals 1 to 4). -/
inductive OperationPriority where
  | LOW
  | MEDIUM
  | HIGH
  | CRITICAL
  deriving DecidableEq, BEq

/-- The numeric ordinal of an OperationPriority. -/
def OperationPriority.toNat : OperationPriority → ℕ
  | .LOW => 1
  | .MEDIUM => 2
  | .HIGH => 3
  | .CRITICAL => 4

/-- dgdaContext attached to a queue item. -/
structure QueueDgdaContext where
  submissionId : Option String
  documentId : Option String
  complianceRequired : Option Bool
  deriving DecidableEq

/-- auditTrail attached to a queue item. -/
structure QueueAuditTrail where
  userId : String
  action : String
  businessJustification : Option String
  customerContext : Option String
  deriving DecidableEq

/-- HTTP method of a queued request. -/
inductive HttpMethod where
  | GET
  | POST
  | PUT
  | DELETE
  | PATCH
  deriving DecidableEq, BEq

/-- OfflineQueueItem: a queued mutating operation.  Timestamps are naturals
(milliseconds); the payload string stands for the serialized data. -/
structure OfflineQueueItem where
  id : String
  type : OfflineOperationType
  priority : OperationPriority
  data : String
  endpoint : String
  method : HttpMethod
  headers : Option (List (String × String))
  createdAt : ℕ
  lastAttempt : Option ℕ
  attemptCount : ℕ
  maxAttempts : ℕ
  error : Option String
  dependencies : Option (List String)
  dgdaContext : Option QueueDgdaContext
  auditTrail : Option QueueAuditTrail
  deriving DecidableEq

/-- dataIntegrity sub-state of the offline queue. -/
structure DataIntegrityState where
  checksumEnabled : Bool
  lastIntegrityCheck : Option ℕ
  corruptedItems : List String
  deriving DecidableEq

/-- The slice of OfflineQueueState acted on by the reducers modelled here:
the live item list and the data-integrity record that receives exhausted
operations. -/
structure OfflineQueueState where
  items : List OfflineQueueItem
  dataIntegrity : DataIntegrityState
  deriving DecidableEq

/-- The initial offline queue state (items empty, nothing corrupted). -/
def initialQueueState : OfflineQueueState :=
  { items := [], dataIntegrity := { checksumEnabled := true, lastIntegrityCheck := none, corruptedItems := [] } }

/-- JS truthiness of context?.dgdaContext?.complianceRequired. -/
def complianceFlag : Option QueueDgdaContext → Bool
  | some c => c.complianceRequired.getD false
  | none => false

/-- calculatePriority from the offline queue module.  Note that the
membership tests run against the runtime string value of the enum member
(lowercase), not against the member name. -/
def calculatePriority (type : OfflineOperationType) (dgdaContext : Option QueueDgdaContext) :
    OperationPriority :=
  if jsIncludes (operationTypeValue type) "DGDA" || complianceFlag dgdaContext then
    OperationPriority.CRITICAL
  else if jsIncludes (operationTypeValue type) "CUSTOMER" then
    OperationPriority.HIGH
  else if jsIncludes (operationTypeValue type) "ANALYTICS"
      || jsIncludes (operationTypeValue type) "METRICS" then
    OperationPriority.LOW
  else
    OperationPriority.MEDIUM

/-- Payload of the addToQueue action. -/
structure AddToQueuePayload where
  type : OfflineOperationType
  data : String
  endpoint : String
  method : HttpMethod
  headers : Option (List (String × String))
  dependencies : Option (List String)
  dgdaContext : Option QueueDgdaContext
  auditTrail : Option QueueAuditTrail

/-- addToQueue reducer: builds the item (priority derived by
calculatePriority, attemptCount 0, maxAttempts 3) and inserts it before the
first existing item of strictly lower priority, appending if there is none
(JS findIndex returning -1 corresponds to findIdx returning the length). -/
def addToQueue (now : ℕ) (freshId : String) (s : OfflineQueueState) (p : AddToQueuePayload) :
    OfflineQueueState :=
  let queueItem : OfflineQueueItem :=
    { id := freshId
      type := p.type
      priority := calculatePriority p.type p.dgdaContext
      data := p.data
      endpoint := p.endpoint
      method := p.method
      headers := p.headers
      createdAt := now
      lastAttempt := none
      attemptCount := 0
      maxAttempts := 3
      error := none
      dependencies := p.dependencies
      dgdaContext := p.dgdaContext
      auditTrail := p.auditTrail }
  let insertIndex := s.items.findIdx (fun item => item.priority.toNat < queueItem.priority.toNat)
  { s with items := s.items.insertIdx insertIndex queueItem }

/-- removeFromQueue reducer: drop every item with the given id. -/
def removeFromQueue (s : OfflineQueueState) (id : String) : OfflineQueueState :=
  { s with items := s.items.filter (fun item => item.id != id) }

/-- Update the first list element whose id matches, leaving the rest alone
(the reducer mutates the item located by Array.prototype.find). -/
def updateFirstItem (f : OfflineQueueItem → OfflineQueueItem) (id : String) :
    List OfflineQueueItem → List OfflineQueueItem
  | [] => []
  | it :: rest => if it.id == id then f it :: rest else it :: updateFirstItem f id rest

/-- updateQueueItem reducer: set attemptCount / error / lastAttempt on the
first item with the given id, each field only when the payload defines it. -/
def updateQueueItem (s : OfflineQueueState) (id : String)
    (attemptCount : Option ℕ) (error : Option String) (lastAttempt : Option ℕ) :
    OfflineQueueState :=
  { s with
    items := updateFirstItem
      (fun it =>
        { it with
          attemptCount := attemptCount.getD it.attemptCount
          error := match error with | some e => some e | none => it.error
          lastAttempt := match lastAttempt with | some t => some t | none => it.lastAttempt })
      id s.items }

/-- markAsCorrupted reducer: record the id in the corrupted set unless it is
already present. -/
def markAsCorrupted (s : OfflineQueueState) (id : String) : OfflineQueueState :=
  if s.dataIntegrity.corruptedItems.contains id then s
  else
    { s with dataIntegrity :=
        { s.dataIntegrity with corruptedItems := s.dataIntegrity.corruptedItems ++ [id] } }

/-- One drain-pass attempt of an operation whose HTTP request fails with a
non-409 error, exactly as the catch branch of processBatch performs it: the
attempt count of the snapshot item is incremented through updateQueueItem,
and when the incremented count reaches maxAttempts the item is removed from
the live queue and marked corrupted. -/
def processFailedItem (now : ℕ) (errMsg : String) (id : String) (s : OfflineQueueState) :
    OfflineQueueState :=
  match s.items.find? (fun it => it.id == id) with
  | none => s
  | some it =>
    let s1 := updateQueueItem s id (some (it.attemptCount + 1)) (some errMsg) (some now)
    if it.maxAttempts ≤ it.attemptCount + 1 then
      markAsCorrupted (removeFromQueue s1 id) id
    else s1

/-- Result shape of getQueueStats. -/
structure QueueStats where
  totalItems : ℕ
  pendingItems : ℕ
  criticalItems : ℕ
  oldestItem : Option ℕ
  deriving DecidableEq

/-- createdAt of the oldest item (JS reduce over the list, first element as
the accumulator seed), or none when the queue is empty. -/
def oldestCreatedAt : List OfflineQueueItem → Option ℕ
  | [] => none
  | it :: rest =>
    some ((rest.foldl (fun oldest current =>
      if current.createdAt < oldest.createdAt then current else oldest) it).createdAt)

/-- getQueueStats from OfflineSyncService. -/
def getQueueStats (s : OfflineQueueState) : QueueStats :=
  { totalItems := s.items.length
    pendingItems := (s.items.filter (fun it => it.attemptCount == 0)).length
    criticalItems := (s.items.filter (fun it => it.priority == OperationPriority.CRITICAL)).length
    oldestItem := oldestCreatedAt s.items }

/- ## Realtime WebSocket channel (webSocket slice + service) -/

/-- WebSocket connection states. -/
inductive WebSocketStatus where
  | DISCONNECTED
  | CONNECTING
  | CONNECTED
  | RECONNECTING
  | ERROR
  deriving DecidableEq, BEq

/-- PharmaceuticalEventType: the declared closed set of realtime event
types (thirteen members). -/
inductive PharmaceuticalEventType where
  | DGDA_SUBMISSION_STATUS_CHANGE
  | DGDA_DOCUMENT_APPROVED
  | DGDA_COMPLIANCE_DEADLINE
  | CUSTOMER_TIER_UPDATED
  | CUSTOMER_TERRITORY_CHANGED
  | CUSTOMER_COMPLIANCE_STATUS
  | CAMPAIGN_STATUS_CHANGE
  | CAMPAIGN_APPROVAL_UPDATE
  | CAMPAIGN_PERFORMANCE_ALERT
  | TERRITORY_ASSIGNMENT_CHANGE
  | TERRITORY_PERFORMANCE_UPDATE
  | SYSTEM_MAINTENANCE
  | AUDIT_TRAIL_UPDATE
  deriving DecidableEq, BEq

/-- dgdaContext carried by a realtime message. -/
structure MessageDgdaContext where
  submissionId : Option String
  documentId : Option String
  complianceStatus : Option String
  deriving DecidableEq

/-- auditTrail carried by a realtime message. -/
structure MessageAuditTrail where
  action : String
  actor : String
  businessJustification : Option String
  deriving DecidableEq

/-- PharmaceuticalWebSocketMessage: a parsed tagged realtime event. -/
structure PharmaceuticalWebSocketMessage where
  type : PharmaceuticalEventType
  payload : String
  timestamp : ℕ
  userId : Option String
  tenantId : Option String
  dgdaContext : Option MessageDgdaContext
  auditTrail : Option MessageAuditTrail
  deriving DecidableEq

/-- WebSocketState of the webSocket slice. -/
structure WebSocketState where
  status : WebSocketStatus
  lastConnected : Option ℕ
  reconnectAttempts : ℕ
  maxReconnectAttempts : ℕ
  events : List PharmaceuticalWebSocketMessage
  subscriptions : List String
  error : Option String
  deriving DecidableEq

/-- Initial state of the webSocket slice. -/
def initialWebSocketState : WebSocketState :=
  { status := WebSocketStatus.DISCONNECTED
    lastConnected := none
    reconnectAttempts := 0
    maxReconnectAttempts := 5
    events := []
    subscriptions := []
    error := none }

/-- The actions of the webSocket slice.  connectionEstablished carries the
current time (new Date() at dispatch). -/
inductive WsAction where
  | connectionStarted
  | connectionEstablished (now : ℕ)
  | connectionLost (err : String)
  | reconnecting
  | connectionError (err : String)
  | eventReceived (msg : PharmaceuticalWebSocketMessage)
  | subscriptionAdded (channel : String)
  | subscriptionRemoved (channel : String)
  | eventsCleared

/-- The webSocket slice reducer, one case per action.  eventReceived
unshifts the message and truncates to the first 100 entries when the log
grows past 100. -/
def wsReduce (s : WebSocketState) : WsAction → WebSocketState
  | WsAction.connectionStarted =>
    { s with status := WebSocketStatus.CONNECTING, error := none }
  | WsAction.connectionEstablished now =>
    { s with status := WebSocketStatus.CONNECTED, lastConnected := some now,
             reconnectAttempts := 0, error := none }
  | WsAction.connectionLost err =>
    { s with status := WebSocketStatus.DISCONNECTED, error := some err }
  | WsAction.reconnecting =>
    { s with status := WebSocketStatus.RECONNECTING,
             reconnectAttempts := s.reconnectAttempts + 1 }
  | WsAction.connectionError err =>
    { s with status := WebSocketStatus.ERROR, error := some err }
  | WsAction.eventReceived msg =>
    let events := msg :: s.events
    { s with events := if 100 < events.length then events.take 100 else events }
  | WsAction.subscriptionAdded channel =>
    if s.subscriptions.contains channel then s
    else { s with subscriptions := s.subscriptions ++ [channel] }
  | WsAction.subscriptionRemoved channel =>
    { s with subscriptions := s.subscriptions.filter (fun sub => sub != channel) }
  | WsAction.eventsCleared =>
    { s with events := [] }

/-- The event types recognized by the switch in handleMessage (eight of the
thirteen declared types; the remaining five fall to the default branch). -/
def recognizedEventType : PharmaceuticalEventType → Bool
  | PharmaceuticalEventType.DGDA_SUBMISSION_STATUS_CHANGE => true
  | PharmaceuticalEventType.DGDA_DOCUMENT_APPROVED => true
  | PharmaceuticalEventType.DGDA_COMPLIANCE_DEADLINE => true
  | PharmaceuticalEventType.CUSTOMER_TIER_UPDATED => true
  | PharmaceuticalEventType.CUSTOMER_TERRITORY_CHANGED => true
  | PharmaceuticalEventType.CAMPAIGN_STATUS_CHANGE => true
  | PharmaceuticalEventType.TERRITORY_ASSIGNMENT_CHANGE => true
  | PharmaceuticalEventType.AUDIT_TRAIL_UPDATE => true
  | _ => false

/-- handleMessage on an already-parsed message: recognized types dispatch
eventReceived, the default branch only logs and leaves the state alone. -/
def handleMessage (s : WebSocketState) (msg : PharmaceuticalWebSocketMessage) :
    WebSocketState :=
  if recognizedEventType msg.type then wsReduce s (WsAction.eventReceived msg) else s

/-- The actions dispatched synchronously by handleClose: connectionLost
always (with the close reason, defaulted when empty), and reconnecting when
the close code is not the intentional-closure code 1000 and no reconnect
timer is already pending (scheduleReconnect returns early otherwise). -/
def handleCloseActions (code : ℕ) (reason : String) (reconnectTimerPending : Bool) :
    List WsAction :=
  [WsAction.connectionLost
    ("Connection closed: " ++ (if reason == "" then "Unknown reason" else reason))] ++
  (if code != 1000 && !reconnectTimerPending then [WsAction.reconnecting] else [])

/-- The fixed reconnect delay (milliseconds) used by scheduleReconnect. -/
def reconnectDelayMs : ℕ := 5000

/-- A control message the service writes to the transport. -/
inductive WsOutMsg where
  | subscribeMsg (channels : List String)
  | unsubscribeMsg (channels : List String)
  deriving DecidableEq

/-- PharmaceuticalWebSocketService.subscribe: when the transport is OPEN it
sends the subscribe control message and dispatches subscriptionAdded per
channel; when not open the whole body is skipped. -/
def subscribeSvc (wsOpen : Bool) (s : WebSocketState) (channels : List String) :
    WebSocketState × Option WsOutMsg :=
  if wsOpen then
    (channels.foldl (fun st c => wsReduce st (WsAction.subscriptionAdded c)) s,
     some (WsOutMsg.subscribeMsg channels))
  else (s, none)

/-- PharmaceuticalWebSocketService.unsubscribe, same gating as subscribe. -/
def unsubscribeSvc (wsOpen : Bool) (s : WebSocketState) (channels : List String) :
    WebSocketState × Option WsOutMsg :=
  if wsOpen then
    (channels.foldl (fun st c => wsReduce st (WsAction.subscriptionRemoved c)) s,
     some (WsOutMsg.unsubscribeMsg channels))
  else (s, none)

/- ## Pharmaceutical cache (cache slice + service) -/

/-- CacheStrategy enum. -/
inductive CacheStrategy where
  | PERSISTENT
  | DYNAMIC
  | CRITICAL
  | REALTIME
  | TEMPORARY
  deriving DecidableEq, BEq

/-- CachePriority enum (ordinals 1 to 4). -/
inductive CachePriority where
  | LOW
  | MEDIUM
  | HIGH
  | CRITICAL
  deriving DecidableEq, BEq

/-- The numeric ordinal of a CachePriority. -/
def CachePriority.toNat : CachePriority → ℕ
  | .LOW => 1
  | .MEDIUM => 2
  | .HIGH => 3
  | .CRITICAL => 4

/-- InvalidationTrigger enum. -/
inductive InvalidationTrigger where
  | TIME_BASED
  | EVENT_BASED
  | MANUAL
  | DEPENDENCY_CHANGE
  | DATA_MUTATION
  deriving DecidableEq, BEq

/-- Per-strategy configuration. -/
structure StrategyConfig where
  defaultTTL : ℕ
  maxSize : ℕ
  priority : CachePriority
  persistToDisk : Bool
  deriving DecidableEq

/-- CacheConfig.  strategies is the per-strategy table. -/
structure CacheConfig where
  maxMemoryUsage : ℕ
  maxEntries : ℕ
  defaultTTL : ℕ
  cleanupInterval : ℕ
  persistToDisk : Bool
  compressionEnabled : Bool
  integrityCheckEnabled : Bool
  strategies : CacheStrategy → StrategyConfig

/-- CacheMetadata of an entry.  Timestamps are naturals (milliseconds); the
dgdaContext is carried opaquely. -/
structure CacheMetadata where
  strategy : CacheStrategy
  priority : CachePriority
  createdAt : ℕ
  lastAccessed : ℕ
  accessCount : ℕ
  expiryTime : Option ℕ
  invalidationTriggers : List InvalidationTrigger
  dependencies : List String
  size : ℕ
  checksum : Option String
  dgdaContext : Option String
  deriving DecidableEq

/-- CacheEntry: the stored data string stands for its JSON serialization. -/
structure CacheEntry where
  key : String
  data : String
  metadata : CacheMetadata
  tags : List String
  deriving DecidableEq

/-- CacheMetrics.  memoryUsage is an integer: the reducers subtract sizes
and nothing in the code clamps at zero. -/
structure CacheMetrics where
  hitCount : ℕ
  missCount : ℕ
  evictionCount : ℕ
  totalRequests : ℕ
  averageResponseTime : ℕ
  memoryUsage : ℤ
  maxMemoryUsage : ℕ
  lastOptimization : Option ℕ
  deriving DecidableEq

/-- CacheState of the cache slice. -/
structure CacheState where
  entries : List CacheEntry
  metrics : CacheMetrics
  config : CacheConfig
  isOptimizing : Bool
  lastCleanup : Option ℕ
  pendingInvalidations : List String
  backgroundSyncQueue : List String

/-- The default cache configuration from the source. -/
def defaultConfig : CacheConfig :=
  { maxMemoryUsage := 50 * 1024 * 1024
    maxEntries := 10000
    defaultTTL := 3600
    cleanupInterval := 300
    persistToDisk := true
    compressionEnabled := true
    integrityCheckEnabled := true
    strategies := fun strategy =>
      match strategy with
      | CacheStrategy.PERSISTENT =>
        { defaultTTL := 86400, maxSize := 1024 * 1024,
          priority := CachePriority.HIGH, persistToDisk := true }
      | CacheStrategy.DYNAMIC =>
        { defaultTTL := 1800, maxSize := 512 * 1024,
          priority := CachePriority.MEDIUM, persistToDisk := false }
      | CacheStrategy.CRITICAL =>
        { defaultTTL := 43200, maxSize := 2 * 1024 * 1024,
          priority := CachePriority.CRITICAL, persistToDisk := true }
      | CacheStrategy.REALTIME =>
        { defaultTTL := 60, maxSize := 256 * 1024,
          priority := CachePriority.LOW, persistToDisk := false }
      | CacheStrategy.TEMPORARY =>
        { defaultTTL := 300, maxSize := 128 * 1024,
          priority := CachePriority.LOW, persistToDisk := false } }

/-- The initial cache state. -/
def initialCacheState : CacheState :=
  { entries := []
    metrics :=
      { hitCount := 0, missCount := 0, evictionCount := 0, totalRequests := 0,
        averageResponseTime := 0, memoryUsage := 0,
        maxMemoryUsage := defaultConfig.maxMemoryUsage, lastOptimization := none }
    config := defaultConfig
    isOptimizing := false
    lastCleanup := none
    pendingInvalidations := []
    backgroundSyncQueue := [] }

/-- Lookup in the keyed entry object (first entry with the key). -/
def lookupEntry (l : List CacheEntry) (key : String) : Option CacheEntry :=
  l.find? (fun e => e.key == key)

/-- Assignment state.entries[key] = entry: replace in place when the key is
present, append otherwise (JS object insertion order). -/
def insertEntry : List CacheEntry → CacheEntry → List CacheEntry
  | [], e => [e]
  | x :: xs, e => if x.key == e.key then e :: xs else x :: insertEntry xs e

/-- delete state.entries[key]. -/
def removeKey (l : List CacheEntry) (key : String) : List CacheEntry :=
  l.filter (fun e => e.key != key)

/-- TTL test of accessCacheEntry: only performed when an expiryTime was
stored, and new Date() is strictly past it. -/
def isExpired (now : ℕ) (e : CacheEntry) : Bool :=
  match e.metadata.expiryTime with
  | some t => t < now
  | none => false

/-- Touch the first entry with the key: lastAccessed set to now and
accessCount incremented. -/
def updateEntryAccess (now : ℕ) : List CacheEntry → String → List CacheEntry
  | [], _ => []
  | e :: rest, key =>
    if e.key == key then
      { e with metadata :=
          { e.metadata with lastAccessed := now,
                            accessCount := e.metadata.accessCount + 1 } } :: rest
    else e :: updateEntryAccess now rest key

/-- Payload of the setCacheEntry action (tags and dependencies default to
empty in the reducer when absent). -/
structure SetCachePayload where
  key : String
  data : String
  strategy : CacheStrategy
  ttl : Option ℕ
  tags : List String
  dependencies : List String
  dgdaContext : Option String

/-- setCacheEntry reducer: derives metadata from the strategy table (JS
ttl || default makes an explicit 0 fall back to the default), rejects the
write silently when the estimated size exceeds the strategy maxSize, and
otherwise stores the entry, adds its size to the aggregate, and schedules a
memory-pressure cleanup when usage goes past 80 percent of the ceiling. -/
def setCacheEntry (now : ℕ) (s : CacheState) (p : SetCachePayload) : CacheState :=
  let strategyConfig := s.config.strategies p.strategy
  let finalTTL : ℕ :=
    match p.ttl with
    | some t => if t = 0 then strategyConfig.defaultTTL else t
    | none => strategyConfig.defaultTTL
  let metadata : CacheMetadata :=
    { strategy := p.strategy
      priority := strategyConfig.priority
      createdAt := now
      lastAccessed := now
      accessCount := 1
      expiryTime := some (now + finalTTL * 1000)
      invalidationTriggers := [InvalidationTrigger.TIME_BASED]
      dependencies := p.dependencies
      size := calculateDataSize p.data
      checksum := if s.config.integrityCheckEnabled then some (generateChecksum p.data) else none
      dgdaContext := p.dgdaContext }
  if strategyConfig.maxSize < metadata.size then s
  else
    let entry : CacheEntry := { key := p.key, data := p.data, metadata := metadata, tags := p.tags }
    let memoryUsage : ℤ := s.metrics.memoryUsage + (metadata.size : ℤ)
    { s with
      entries := insertEntry s.entries entry
      metrics := { s.metrics with memoryUsage := memoryUsage }
      pendingInvalidations :=
        if ((s.config.maxMemoryUsage : ℚ) * (8 / 10)) < (memoryUsage : ℚ) then
          s.pendingInvalidations ++ ["memory_pressure_cleanup"]
        else s.pendingInvalidations }

/-- accessCacheEntry reducer: counts the request; an expired entry is
deleted and counted as a miss, a live entry is touched and counted as a
hit, an absent key is a miss. -/
def accessCacheEntry (now : ℕ) (s : CacheState) (key : String) : CacheState :=
  let metrics := { s.metrics with totalRequests := s.metrics.totalRequests + 1 }
  match lookupEntry s.entries key with
  | some entry =>
    if isExpired now entry then
      { s with
        entries := removeKey s.entries key
        metrics := { metrics with
          memoryUsage := metrics.memoryUsage - (entry.metadata.size : ℤ),
          missCount := metrics.missCount + 1 } }
    else
      { s with
        entries := updateEntryAccess now s.entries key
        metrics := { metrics with hitCount := metrics.hitCount + 1 } }
  | none => { s with metrics := { metrics with missCount := metrics.missCount + 1 } }

/-- invalidateCacheEntry reducer: subtracts the entry size, counts an
eviction, deletes the entry, and schedules every remaining entry that lists
the key among its dependencies. -/
def invalidateCacheEntry (s : CacheState) (key : String) : CacheState :=
  match lookupEntry s.entries key with
  | some entry =>
    let entries := removeKey s.entries key
    { s with
      entries := entries
      metrics := { s.metrics with
        memoryUsage := s.metrics.memoryUsage - (entry.metadata.size : ℤ),
        evictionCount := s.metrics.evictionCount + 1 }
      pendingInvalidations :=
        s.pendingInvalidations ++
          ((entries.filter (fun e => e.metadata.dependencies.contains key)).map (fun e => e.key)) }
  | none => s

/-- PharmaceuticalCacheService.get: dispatch accessCacheEntry, then re-read
the entry; with integrity checking enabled and a stored checksum, a
recomputed mismatch invalidates the entry and returns null. -/
def cacheGet (now : ℕ) (s : CacheState) (key : String) : Option String × CacheState :=
  let s1 := accessCacheEntry now s key
  match lookupEntry s1.entries key with
  | some entry =>
    if s1.config.integrityCheckEnabled then
      match entry.metadata.checksum with
      | some stored =>
        if generateChecksum entry.data != stored then (none, invalidateCacheEntry s1 key)
        else (some entry.data, s1)
      | none => (some entry.data, s1)
    else (some entry.data, s1)
  | none => (none, s1)

/-- Sum of the estimated sizes of the entries currently stored. -/
def sumSizes (l : List CacheEntry) : ℤ :=
  (l.map (fun e => (e.metadata.size : ℤ))).sum

/-- Whether an entry holds CRITICAL cache priority. -/
def isCriticalEntry (e : CacheEntry) : Bool :=
  e.metadata.priority == CachePriority.CRITICAL

/-- Per-entry eviction score of optimizeCache:
accessCount / (Date.now() - lastAccessed), as a rational (the faithful
real-valued reading of the JS float division for positive ages). -/
def entryScore (now : ℕ) (e : CacheEntry) : ℚ :=
  (e.metadata.accessCount : ℚ) / ((now : ℚ) - (e.metadata.lastAccessed : ℚ))

/-- The sort comparator of optimizeCache read as an ordering: CRITICAL
entries sort after everything (they are kept), the rest ascend by score. -/
def entryLeB (now : ℕ) (a b : CacheEntry) : Bool :=
  if isCriticalEntry a then isCriticalEntry b
  else isCriticalEntry b || decide (entryScore now a ≤ entryScore now b)

/-- The eviction loop of optimizeCache: walk the sorted entries, stop as
soon as current memory is at or below the target, skip CRITICAL entries,
evict the rest.  Returns the final current memory and the evicted entries
in eviction order. -/
def evictLoop (target : ℚ) (cur : ℤ) : List CacheEntry → ℤ × List CacheEntry
  | [] => (cur, [])
  | e :: rest =>
    if (cur : ℚ) ≤ target then (cur, [])
    else if isCriticalEntry e then evictLoop target cur rest
    else
      let r := evictLoop target (cur - (e.metadata.size : ℤ)) rest
      (r.1, e :: r.2)

/-- The entries of the state sorted by the optimizeCache comparator. -/
def sortedForEviction (now : ℕ) (s : CacheState) : List CacheEntry :=
  List.insertionSort (fun a b => entryLeB now a b = true) s.entries

/-- The 70 percent headroom target of optimizeCache. -/
def evictionTarget (s : CacheState) : ℚ :=
  (s.config.maxMemoryUsage : ℚ) * (7 / 10)

/-- The entries the optimizeCache pass evicts, in order. -/
def evictedEntries (now : ℕ) (s : CacheState) : List CacheEntry :=
  (evictLoop (evictionTarget s) s.metrics.memoryUsage (sortedForEviction now s)).2

/-- The non-CRITICAL entries in comparator order (ascending score). -/
def sortedNonCritical (now : ℕ) (s : CacheState) : List CacheEntry :=
  (sortedForEviction now s).filter (fun e => !isCriticalEntry e)

/-- optimizeCache reducer: a no-op unless usage exceeds the ceiling;
otherwise sorts by the comparator and runs the eviction loop down to the 70
percent target, counting evictions and recording the final usage. -/
def optimizeCache (now : ℕ) (s : CacheState) : CacheState :=
  if s.metrics.memoryUsage ≤ (s.config.maxMemoryUsage : ℤ) then s
  else
    let r := evictLoop (evictionTarget s) s.metrics.memoryUsage (sortedForEviction now s)
    { s with
      entries := s.entries.filter (fun e => !(r.2.any (fun d => d.key == e.key)))
      metrics := { s.metrics with
        memoryUsage := r.1,
        evictionCount := s.metrics.evictionCount + r.2.length,
        lastOptimization := some now }
      isOptimizing := false }

/- ## Concrete fixture states used by witnesses and counterexamples -/

/-- A freshly enqueued operation (never attempted, default maxAttempts 3). -/
def qItem0 : OfflineQueueItem :=
  { id := "q1"
    type := OfflineOperationType.CREATE_CUSTOMER
    priority := OperationPriority.MEDIUM
    data := "d"
    endpoint := "/api/v1/customers"
    method := HttpMethod.POST
    headers := none
    createdAt := 0
    lastAttempt := none
    attemptCount := 0
    maxAttempts := 3
    error := none
    dependencies := none
    dgdaContext := none
    auditTrail := none }

/-- Queue state holding the single fresh operation. -/
def qState0 : OfflineQueueState := { initialQueueState with items := [qItem0] }

/-- An operation that has already failed twice but is still queued. -/
def qItemTried : OfflineQueueItem := { qItem0 with id := "q2", attemptCount := 2 }

/-- Queue state holding one fresh and one already-attempted operation. -/
def qStatsState : OfflineQueueState := { initialQueueState with items := [qItem0, qItemTried] }

/-- A websocket state that is currently CONNECTED. -/
def wsConnectedState : WebSocketState :=
  { initialWebSocketState with status := WebSocketStatus.CONNECTED, reconnectAttempts := 0 }

/-- A websocket state already subscribed to one channel. -/
def wsSubscribedState : WebSocketState :=
  { initialWebSocketState with subscriptions := ["dgda_updates"] }

/-- A realtime message whose type is declared in PharmaceuticalEventType but
not handled by the handleMessage switch. -/
def complianceStatusMsg : PharmaceuticalWebSocketMessage :=
  { type := PharmaceuticalEventType.CUSTOMER_COMPLIANCE_STATUS
    payload := "p"
    timestamp := 0
    userId := none
    tenantId := none
    dgdaContext := none
    auditTrail := none }

/-- A realtime message of a recognized type. -/
def dgdaApprovedMsg : PharmaceuticalWebSocketMessage :=
  { complianceStatusMsg with type := PharmaceuticalEventType.DGDA_DOCUMENT_APPROVED }

/-- A cache entry whose stored checksum does not match its data (the hash of
"5" is not "zz"), unexpired, MEDIUM priority. -/
def corruptEntry : CacheEntry :=
  { key := "k"
    data := "5"
    metadata :=
      { strategy := CacheStrategy.DYNAMIC
        priority := CachePriority.MEDIUM
        createdAt := 0
        lastAccessed := 0
        accessCount := 1
        expiryTime := none
        invalidationTriggers := [InvalidationTrigger.TIME_BASED]
        dependencies := []
        size := 1
        checksum := some "zz"
        dgdaContext := none }
    tags := [] }

/-- Cache state holding only the corrupted entry. -/
def corruptState : CacheState :=
  { initialCacheState with
    entries := [corruptEntry]
    metrics := { initialCacheState.metrics with memoryUsage := 1 } }

/-- A healthy stored entry for the overwrite scenario (data "aa", 2 bytes). -/
def overwrittenEntry : CacheEntry :=
  { key := "k"
    data := "aa"
    metadata :=
      { strategy := CacheStrategy.TEMPORARY
        priority := CachePriority.LOW
        createdAt := 0
        lastAccessed := 0
        accessCount := 1
        expiryTime := some 300000
        invalidationTriggers := [InvalidationTrigger.TIME_BASED]
        dependencies := []
        size := 2
        checksum := some (generateChecksum "aa")
        dgdaContext := none }
    tags := [] }

/-- Cache state holding that entry, aggregate usage in sync (2 bytes). -/
def overwriteState : CacheState :=
  { initialCacheState with
    entries := [overwrittenEntry]
    metrics := { initialCacheState.metrics with memoryUsage := 2 } }

/-- A set payload that overwrites key "k" with 3 bytes of new data. -/
def overwritePayload : SetCachePayload :=
  { key := "k", data := "bbb", strategy := CacheStrategy.TEMPORARY,
    ttl := none, tags := [], dependencies := [], dgdaContext := none }

/-- A configuration whose strategies all cap entries at a single byte. -/
def tinyConfig : CacheConfig :=
  { defaultConfig with
    strategies := fun _ =>
      { defaultTTL := 60, maxSize := 1, priority := CachePriority.LOW, persistToDisk := false } }

/-- Empty cache running the tiny configuration. -/
def tinyState : CacheState := { initialCacheState with config := tinyConfig }

/-- A payload whose 2-byte data exceeds the 1-byte strategy cap. -/
def bigPayload : SetCachePayload :=
  { key := "big", data := "aa", strategy := CacheStrategy.DYNAMIC,
    ttl := none, tags := [], dependencies := [], dgdaContext := none }

/-- Eviction fixture: a rarely used entry (score 1/10 at time 10). -/
def evEntryLow : CacheEntry :=
  { key := "low"
    data := "x"
    metadata :=
      { strategy := CacheStrategy.DYNAMIC
        priority := CachePriority.MEDIUM
        createdAt := 0
        lastAccessed := 0
        accessCount := 1
        expiryTime := none
        invalidationTriggers := [InvalidationTrigger.TIME_BASED]
        dependencies := []
        size := 4
        checksum := none
        dgdaContext := none }
    tags := [] }

/-- Eviction fixture: a hotter entry (score 1 at time 10). -/
def evEntryMid : CacheEntry :=
  { evEntryLow with
    key := "mid"
    metadata := { evEntryLow.metadata with accessCount := 5, lastAccessed := 5 } }

/-- Eviction fixture: a CRITICAL-priority entry. -/
def evEntryCrit : CacheEntry :=
  { evEntryLow with
    key := "crit"
    metadata := { evEntryLow.metadata with priority := CachePriority.CRITICAL } }

/-- A 10-byte ceiling configuration for the eviction fixture. -/
def evConfig : CacheConfig := { defaultConfig with maxMemoryUsage := 10 }

/-- Over-ceiling cache state: 12 bytes used against a 10-byte ceiling. -/
def evState : CacheState :=
  { initialCacheState with
    entries := [evEntryLow, evEntryMid, evEntryCrit]
    config := evConfig
    metrics := { initialCacheState.metrics with memoryUsage := 12 } }

/- ## Helper lemmas: offline queue -/

/-- Finding by id after an id-preserving first-match update returns the
updated hit. -/
theorem find?_updateFirstItem (f : OfflineQueueItem → OfflineQueueItem) (id : String)
    (l : List OfflineQueueItem) (hf : ∀ x, (f x).id = x.id) :
    (updateFirstItem f id l).find? (fun it => it.id == id) =
      (l.find? (fun it => it.id == id)).map f := by
  induction l with
  | nil => rfl
  | cons it rest ih =>
    by_cases h : (it.id == id) = true
    · have h2 : (((f it).id == id) = true) := by rw [hf it]; exact h
      simp [updateFirstItem, h, List.find?, h2]
    · have h3 : ((it.id == id) = false) := by simpa using h
      have h2 : (((f it).id == id) = false) := by rw [hf it]; exact h3
      simp [updateFirstItem, h3, List.find?, h2, ih]

/-- markAsCorrupted leaves the live item list untouched. -/
theorem markAsCorrupted_items (s : OfflineQueueState) (id : String) :
    (markAsCorrupted s id).items = s.items := by
  unfold markAsCorrupted
  split <;> rfl

/-- markAsCorrupted records the id. -/
theorem mem_markAsCorrupted (s : OfflineQueueState) (id : String) :
    id ∈ (markAsCorrupted s id).dataIntegrity.corruptedItems := by
  unfold markAsCorrupted
  split
  · next h => simpa using h
  · simp

/-- Nothing with the removed id survives removeFromQueue. -/
theorem removeFromQueue_not_mem (s : OfflineQueueState) (id : String) :
    ∀ i ∈ (removeFromQueue s id).items, i.id ≠ id := by
  intro i hi
  unfold removeFromQueue at hi
  have := (List.mem_filter.mp hi).2
  simpa using this

/-- A failing attempt below the retry ceiling: the item stays, its attempt
count is incremented and its error fields are set; the corrupted record is
untouched. -/
theorem processFailedItem_step (now : ℕ) (errMsg id : String) (s : OfflineQueueState)
    (it : OfflineQueueItem)
    (hfind : s.items.find? (fun i => i.id == id) = some it)
    (hlt : it.attemptCount + 1 < it.maxAttempts) :
    (∃ it1, (processFailedItem now errMsg id s).items.find? (fun i => i.id == id) = some it1 ∧
       it1.attemptCount = it.attemptCount + 1 ∧ it1.maxAttempts = it.maxAttempts) ∧
    (processFailedItem now errMsg id s).dataIntegrity = s.dataIntegrity := by
  have hnot : ¬ (it.maxAttempts ≤ it.attemptCount + 1) := by omega
  simp only [processFailedItem, hfind, if_neg hnot]
  refine ⟨⟨{ it with attemptCount := it.attemptCount + 1, error := some errMsg, lastAttempt := some now }, ?_, rfl, rfl⟩, rfl⟩
  simp only [updateQueueItem]
  rw [find?_updateFirstItem]
  · rw [hfind]; rfl
  · intro x; rfl

/-- A failing attempt that reaches the retry ceiling: the item leaves the
live queue and its id is recorded as corrupted. -/
theorem processFailedItem_final (now : ℕ) (errMsg id : String) (s : OfflineQueueState)
    (it : OfflineQueueItem)
    (hfind : s.items.find? (fun i => i.id == id) = some it)
    (hge : it.maxAttempts ≤ it.attemptCount + 1) :
    (∀ i ∈ (processFailedItem now errMsg id s).items, i.id ≠ id) ∧
    id ∈ (processFailedItem now errMsg id s).dataIntegrity.corruptedItems := by
  simp only [processFailedItem, hfind, if_pos hge]
  constructor
  · intro i hi
    rw [markAsCorrupted_items] at hi
    exact removeFromQueue_not_mem _ id i hi
  · exact mem_markAsCorrupted _ id

/- ## Claim theorems: offline queue -/

/-- C1: the claim says DGDA-related operation types enqueue at CRITICAL
priority, customer-management types at HIGH and analytics/metrics types at
LOW.  In the code the membership tests compare the uppercase member names
against the lowercase runtime enum values, so none of the three type-based
branches can ever fire: every DGDA, customer and analytics type falls
through to MEDIUM, against both the specification and the comments inside
calculatePriority itself.  Only the compliance-required flag branch
works. -/
theorem calculatePriority_case_mismatch :
    calculatePriority OfflineOperationType.CREATE_DGDA_SUBMISSION none
      = OperationPriority.MEDIUM ∧
    calculatePriority OfflineOperationType.UPDATE_SUBMISSION_STATUS none
      = OperationPriority.MEDIUM ∧
    calculatePriority OfflineOperationType.CREATE_CUSTOMER none
      = OperationPriority.MEDIUM ∧
    calculatePriority OfflineOperationType.SYNC_ANALYTICS_DATA none
      = OperationPriority.MEDIUM ∧
    calculatePriority OfflineOperationType.UPDATE_PERFORMANCE_METRICS none
      = OperationPriority.MEDIUM ∧
    calculatePriority OfflineOperationType.LOG_AUDIT_ENTRY
      (some { submissionId := none, documentId := none, complianceRequired := some true })
      = OperationPriority.CRITICAL := by
  decide

/-- C2: an operation whose request always fails with a non-409 error gains
exactly one attempt per drain pass; after maxAttempts - 1 = 2 passes it is
still in the live queue with attemptCount 2, and the third pass removes it
from the live queue and records its id in the corrupted set. -/
theorem retry_bound_spec (now1 now2 now3 : ℕ) (errMsg id : String)
    (s : OfflineQueueState) (it : OfflineQueueItem)
    (hfind : s.items.find? (fun i => i.id == id) = some it)
    (h0 : it.attemptCount = 0) (hmax : it.maxAttempts = 3) :
    (∃ it1,
      (processFailedItem now1 errMsg id s).items.find? (fun i => i.id == id) = some it1 ∧
      it1.attemptCount = 1 ∧ it1.maxAttempts = 3) ∧
    (∃ it2,
      (processFailedItem now2 errMsg id (processFailedItem now1 errMsg id s)).items.find?
        (fun i => i.id == id) = some it2 ∧
      it2.attemptCount = 2 ∧ it2.maxAttempts = 3) ∧
    (∀ i ∈ (processFailedItem now3 errMsg id (processFailedItem now2 errMsg id
        (processFailedItem now1 errMsg id s))).items, i.id ≠ id) ∧
    id ∈ (processFailedItem now3 errMsg id (processFailedItem now2 errMsg id
        (processFailedItem now1 errMsg id s))).dataIntegrity.corruptedItems := by
  obtain ⟨⟨it1, hf1, hc1, hm1⟩, -⟩ :=
    processFailedItem_step now1 errMsg id s it hfind (by omega)
  obtain ⟨⟨it2, hf2, hc2, hm2⟩, -⟩ :=
    processFailedItem_step now2 errMsg id _ it1 hf1 (by omega)
  have h3 := processFailedItem_final now3 errMsg id _ it2 hf2 (by omega)
  exact ⟨⟨it1, hf1, by omega, by omega⟩, ⟨it2, hf2, by omega, by omega⟩, h3.1, h3.2⟩

/-- Witness for C2 at a concrete one-item queue. -/
theorem retry_bound_spec_witness :
    (qState0.items.find? (fun i => i.id == "q1") = some qItem0 ∧
     qItem0.attemptCount = 0 ∧ qItem0.maxAttempts = 3) ∧
    (∀ i ∈ (processFailedItem 3 "err" "q1" (processFailedItem 2 "err" "q1"
        (processFailedItem 1 "err" "q1" qState0))).items, i.id ≠ "q1") ∧
    "q1" ∈ (processFailedItem 3 "err" "q1" (processFailedItem 2 "err" "q1"
        (processFailedItem 1 "err" "q1" qState0))).dataIntegrity.corruptedItems := by
  have h := retry_bound_spec 1 2 3 "err" "q1" qState0 qItem0 (by decide) (by decide) (by decide)
  exact ⟨⟨by decide, by decide, by decide⟩, h.2.2.1, h.2.2.2⟩

/-- C10: getQueueStats counts as pending exactly the live operations whose
attemptCount is still 0; totalItems counts every live operation, so an
operation that has failed at least once is counted in totalItems but not in
pendingItems. -/
theorem queueStats_pending_spec (s : OfflineQueueState) :
    (getQueueStats s).pendingItems = (s.items.filter (fun it => it.attemptCount == 0)).length ∧
    (getQueueStats s).totalItems = s.items.length ∧
    (∀ it ∈ s.items, 0 < it.attemptCount →
      (getQueueStats s).pendingItems < (getQueueStats s).totalItems) := by
  refine ⟨rfl, rfl, ?_⟩
  intro it hit hpos
  show (s.items.filter _).length < s.items.length
  rw [List.length_filter_lt_length_iff_exists]
  exact ⟨it, hit, by simp; omega⟩

/-- Witness for C10 at a queue holding one fresh and one retried item. -/
theorem queueStats_pending_spec_witness :
    (qItemTried ∈ qStatsState.items ∧ 0 < qItemTried.attemptCount) ∧
    (getQueueStats qStatsState).pendingItems < (getQueueStats qStatsState).totalItems :=
  ⟨⟨by decide, by decide⟩,
   (queueStats_pending_spec qStatsState).2.2 qItemTried (by decide) (by decide)⟩

/- ## Helper lemmas: realtime channel -/

/-- Membership after one subscriptionAdded dispatch. -/
theorem mem_subscriptionAdded (s : WebSocketState) (c x : String) :
    x ∈ (wsReduce s (WsAction.subscriptionAdded c)).subscriptions ↔
      x ∈ s.subscriptions ∨ x = c := by
  by_cases h : s.subscriptions.contains c
  · have hc : c ∈ s.subscriptions := by simpa using h
    simp only [wsReduce, if_pos h]
    exact ⟨Or.inl, fun hx => hx.elim id (fun hxc => hxc ▸ hc)⟩
  · have hc : c ∉ s.subscriptions := by simpa using h
    simp [wsReduce, hc]

/-- Folding subscriptionAdded over a channel list reaches every channel of
the list and keeps every previous subscription. -/
theorem mem_subscribeFold (channels : List String) :
    ∀ (s : WebSocketState) (x : String), (x ∈ s.subscriptions ∨ x ∈ channels) →
      x ∈ (channels.foldl (fun st c => wsReduce st (WsAction.subscriptionAdded c)) s).subscriptions := by
  induction channels with
  | nil => intro s x hx; simpa using hx.elim id (fun hx => (List.not_mem_nil x hx).elim)
  | cons c rest ih =>
    intro s x hx
    simp only [List.foldl_cons]
    refine ih _ x ?_
    rcases hx with hx | hx
    · exact Or.inl ((mem_subscriptionAdded s c x).mpr (Or.inl hx))
    · rcases List.mem_cons.mp hx with hx | hx
      · exact Or.inl ((mem_subscriptionAdded s c x).mpr (Or.inr hx))
      · exact Or.inr hx

/-- Folding subscriptionRemoved never introduces a subscription. -/
theorem notMem_unsubscribeFold_of_notMem (channels : List String) :
    ∀ (s : WebSocketState) (x : String), x ∉ s.subscriptions →
      x ∉ (channels.foldl (fun st c => wsReduce st (WsAction.subscriptionRemoved c)) s).subscriptions := by
  induction channels with
  | nil => intro s x hx; simpa using hx
  | cons c rest ih =>
    intro s x hx
    simp only [List.foldl_cons]
    refine ih _ x ?_
    intro hmem
    exact hx (List.mem_of_mem_filter hmem)

/-- Folding subscriptionRemoved drops every channel of the list. -/
theorem notMem_unsubscribeFold (channels : List String) :
    ∀ (s : WebSocketState) (x : String), x ∈ channels →
      x ∉ (channels.foldl (fun st c => wsReduce st (WsAction.subscriptionRemoved c)) s).subscriptions := by
  induction channels with
  | nil => intro s x hx; exact (List.not_mem_nil x hx).elim
  | cons c rest ih =>
    intro s x hx
    rcases List.mem_cons.mp hx with rfl | hx
    · simp only [List.foldl_cons]
      refine notMem_unsubscribeFold_of_notMem rest _ x ?_
      intro hmem
      have := (List.mem_filter.mp hmem).2
      simp at this
    · simpa only [List.foldl_cons] using ih _ x hx

/- ## Claim theorems: realtime channel -/

/-- C3 counterexample: with the transport not open, subscribe and
unsubscribe leave the local subscription set untouched (the whole call is a
no-op), contradicting the claim that the set is updated regardless of
transport state. -/
theorem subscribe_offline_counterexample :
    subscribeSvc false initialWebSocketState ["dgda_updates"] = (initialWebSocketState, none) ∧
    (subscribeSvc false initialWebSocketState ["dgda_updates"]).1.subscriptions = [] ∧
    unsubscribeSvc false wsSubscribedState ["dgda_updates"] = (wsSubscribedState, none) ∧
    (unsubscribeSvc false wsSubscribedState ["dgda_updates"]).1.subscriptions = ["dgda_updates"] :=
  ⟨rfl, rfl, rfl, rfl⟩

/-- C3 (amended): both the control message and the local subscription-set
update are gated on the transport being open.  When not connected the call
is a complete no-op; when connected the control message is sent and every
requested channel is added to (or removed from) the local set. -/
theorem subscribe_gated_on_transport (s : WebSocketState) (channels : List String) :
    (subscribeSvc false s channels = (s, none)) ∧
    (unsubscribeSvc false s channels = (s, none)) ∧
    ((subscribeSvc true s channels).2 = some (WsOutMsg.subscribeMsg channels)) ∧
    (∀ c ∈ channels, c ∈ (subscribeSvc true s channels).1.subscriptions) ∧
    ((unsubscribeSvc true s channels).2 = some (WsOutMsg.unsubscribeMsg channels)) ∧
    (∀ c ∈ channels, c ∉ (unsubscribeSvc true s channels).1.subscriptions) := by
  refine ⟨rfl, rfl, rfl, ?_, rfl, ?_⟩
  · intro c hc
    exact mem_subscribeFold channels s c (Or.inr hc)
  · intro c hc
    exact notMem_unsubscribeFold channels s c hc

/-- Witness for the amended C3 at concrete channel lists. -/
theorem subscribe_gated_on_transport_witness :
    ("dgda_updates" ∈ (["dgda_updates"] : List String)) ∧
    "dgda_updates" ∈ (subscribeSvc true initialWebSocketState ["dgda_updates"]).1.subscriptions ∧
    "dgda_updates" ∉ (unsubscribeSvc true wsSubscribedState ["dgda_updates"]).1.subscriptions := by
  have h1 := subscribe_gated_on_transport initialWebSocketState ["dgda_updates"]
  have h2 := subscribe_gated_on_transport wsSubscribedState ["dgda_updates"]
  exact ⟨by decide, h1.2.2.2.1 "dgda_updates" (by decide), h2.2.2.2.2.2 "dgda_updates" (by decide)⟩

/-- C7 counterexample: CUSTOMER_COMPLIANCE_STATUS is a member of the
declared pharmaceutical event-type enum, yet a message carrying it is
dropped by the handler switch — the event log stays empty instead of
receiving the event. -/
theorem unhandled_event_counterexample :
    (handleMessage initialWebSocketState complianceStatusMsg).events = [] ∧
    handleMessage initialWebSocketState complianceStatusMsg = initialWebSocketState :=
  ⟨rfl, rfl⟩

/-- C7 (amended): only the eight event types enumerated in the handler
switch are logged: such a message is prepended (newest first) with the log
truncated to 100 entries; a message of any other type — including the five
remaining declared pharmaceutical event types — leaves the state unchanged
without crashing the channel, and the 100-entry bound is preserved. -/
theorem eventLog_recognized_spec (s : WebSocketState) (m : PharmaceuticalWebSocketMessage) :
    (recognizedEventType m.type = true →
      (handleMessage s m).events = (m :: s.events).take 100) ∧
    (recognizedEventType m.type = false → handleMessage s m = s) ∧
    (s.events.length ≤ 100 → (handleMessage s m).events.length ≤ 100) := by
  have h1 : recognizedEventType m.type = true →
      (handleMessage s m).events = (m :: s.events).take 100 := by
    intro h
    simp only [handleMessage, h, if_true, wsReduce]
    by_cases hl : 100 < (m :: s.events).length
    · simp [hl]
    · simp only [if_neg hl]
      rw [List.take_of_length_le (by omega)]
  have h2 : recognizedEventType m.type = false → handleMessage s m = s := by
    intro h
    simp [handleMessage, h]
  refine ⟨h1, h2, ?_⟩
  intro hle
  by_cases h : recognizedEventType m.type
  · rw [h1 h]
    simp [List.length_take]
  · rw [h2 (by simpa using h)]
    exact hle

/-- Witness for the amended C7: a recognized DGDA event is prepended, an
unrecognized declared type is dropped. -/
theorem eventLog_recognized_spec_witness :
    (recognizedEventType dgdaApprovedMsg.type = true ∧
      (handleMessage initialWebSocketState dgdaApprovedMsg).events =
        (dgdaApprovedMsg :: initialWebSocketState.events).take 100) ∧
    (recognizedEventType complianceStatusMsg.type = false ∧
      handleMessage wsConnectedState complianceStatusMsg = wsConnectedState) :=
  ⟨⟨by decide, (eventLog_recognized_spec initialWebSocketState dgdaApprovedMsg).1 (by decide)⟩,
   ⟨by decide, (eventLog_recognized_spec wsConnectedState complianceStatusMsg).2.1 (by decide)⟩⟩

/-- C9: after an unclean close (code other than 1000) while CONNECTED, the
synchronously dispatched actions leave the channel RECONNECTING with
reconnectAttempts incremented exactly once; the scheduled reconnect (fixed
5000 ms delay) dispatches connectionStarted, moving to CONNECTING without
another increment; a successful reopen dispatches connectionEstablished,
moving to CONNECTED and resetting reconnectAttempts to 0. -/
theorem reconnect_cycle_spec (s : WebSocketState) (code : ℕ) (reason : String) (now : ℕ)
    (hconn : s.status = WebSocketStatus.CONNECTED) (hcode : code ≠ 1000) :
    (((handleCloseActions code reason false).foldl wsReduce s).status
        = WebSocketStatus.RECONNECTING) ∧
    (((handleCloseActions code reason false).foldl wsReduce s).reconnectAttempts
        = s.reconnectAttempts + 1) ∧
    reconnectDelayMs = 5000 ∧
    ((wsReduce ((handleCloseActions code reason false).foldl wsReduce s)
        WsAction.connectionStarted).status = WebSocketStatus.CONNECTING) ∧
    ((wsReduce ((handleCloseActions code reason false).foldl wsReduce s)
        WsAction.connectionStarted).reconnectAttempts = s.reconnectAttempts + 1) ∧
    ((wsReduce (wsReduce ((handleCloseActions code reason false).foldl wsReduce s)
        WsAction.connectionStarted) (WsAction.connectionEstablished now)).status
        = WebSocketStatus.CONNECTED) ∧
    ((wsReduce (wsReduce ((handleCloseActions code reason false).foldl wsReduce s)
        WsAction.connectionStarted) (WsAction.connectionEstablished now)).reconnectAttempts
        = 0) := by
  simp [handleCloseActions, hcode, wsReduce, reconnectDelayMs]

/-- Witness for C9 at a concrete CONNECTED state and close code 1006. -/
theorem reconnect_cycle_spec_witness :
    (wsConnectedState.status = WebSocketStatus.CONNECTED ∧ (1006 : ℕ) ≠ 1000) ∧
    ((handleCloseActions 1006 "network" false).foldl wsReduce wsConnectedState).status
        = WebSocketStatus.RECONNECTING ∧
    ((handleCloseActions 1006 "network" false).foldl wsReduce wsConnectedState).reconnectAttempts
        = 1 ∧
    (wsReduce (wsReduce ((handleCloseActions 1006 "network" false).foldl wsReduce
        wsConnectedState) WsAction.connectionStarted)
        (WsAction.connectionEstablished 99)).reconnectAttempts = 0 := by
  have h := reconnect_cycle_spec wsConnectedState 1006 "network" 99 (by decide) (by decide)
  exact ⟨⟨by decide, by decide⟩, h.1, h.2.1, h.2.2.2.2.2.2⟩

/- ## Helper lemmas: cache -/

/-- Touching an entry moves the lookup result through the touch function. -/
theorem lookupEntry_updateEntryAccess (now : ℕ) (l : List CacheEntry) (key : String) :
    lookupEntry (updateEntryAccess now l key) key =
      (lookupEntry l key).map (fun e =>
        { e with metadata :=
            { e.metadata with lastAccessed := now,
                              accessCount := e.metadata.accessCount + 1 } }) := by
  induction l with
  | nil => rfl
  | cons e rest ih =>
    by_cases h : (e.key == key) = true
    · simp [updateEntryAccess, lookupEntry, List.find?, h]
    · have h3 : ((e.key == key) = false) := by simpa using h
      simp only [updateEntryAccess, h3, Bool.false_eq_true, if_false]
      simp only [lookupEntry, List.find?, h3] at ih ⊢
      exact ih

/-- After deleting a key, looking it up yields nothing. -/
theorem lookupEntry_removeKey (l : List CacheEntry) (key : String) :
    lookupEntry (removeKey l key) key = none := by
  apply List.find?_eq_none.mpr
  intro e he
  have := (List.mem_filter.mp he).2
  simpa using this

/-- Inserting under a fresh key appends. -/
theorem insertEntry_fresh (l : List CacheEntry) (e : CacheEntry)
    (h : lookupEntry (l : List CacheEntry) e.key = none) : insertEntry l e = l ++ [e] := by
  induction l with
  | nil => rfl
  | cons x xs ih =>
    rw [lookupEntry, List.find?_eq_none] at h
    have hx : ((x.key == e.key) = false) := by
      simpa using h x (List.mem_cons_self x xs)
    have hxs : lookupEntry xs e.key = none := by
      rw [lookupEntry, List.find?_eq_none]
      intro y hy
      exact h y (List.mem_cons_of_mem _ hy)
    simp [insertEntry, hx, ih hxs]

/-- Sizes after appending a single entry. -/
theorem sumSizes_append (l : List CacheEntry) (e : CacheEntry) :
    sumSizes (l ++ [e]) = sumSizes l + (e.metadata.size : ℤ) := by
  simp [sumSizes]

/-- Sizes after an in-place overwrite of the first entry holding the key. -/
theorem sumSizes_insertEntry_overwrite (l : List CacheEntry) (e old : CacheEntry)
    (h : lookupEntry l e.key = some old) :
    sumSizes (insertEntry l e) = sumSizes l - (old.metadata.size : ℤ) + (e.metadata.size : ℤ) := by
  induction l with
  | nil => simp [lookupEntry, List.find?] at h
  | cons x xs ih =>
    by_cases hx : (x.key == e.key) = true
    · have hxe : x = old := by
        simp [lookupEntry, List.find?, hx] at h
        exact h
      subst hxe
      simp [insertEntry, hx, sumSizes]
      ring
    · have h3 : ((x.key == e.key) = false) := by simpa using hx
      have hxs : lookupEntry xs e.key = some old := by
        simpa [lookupEntry, List.find?, h3] using h
      simp only [insertEntry, h3, Bool.false_eq_true, if_false]
      simp only [sumSizes, List.map_cons, List.sum_cons] at ih ⊢
      rw [ih hxs]
      ring

/-- Sizes after deleting a present key, given the store keys are distinct. -/
theorem sumSizes_removeKey (l : List CacheEntry) (key : String) (old : CacheEntry)
    (hkeys : (l.map (fun e => e.key)).Nodup)
    (h : lookupEntry l key = some old) :
    sumSizes (removeKey l key) = sumSizes l - (old.metadata.size : ℤ) := by
  induction l with
  | nil => simp [lookupEntry, List.find?] at h
  | cons x xs ih =>
    rw [List.map_cons, List.nodup_cons] at hkeys
    by_cases hx : (x.key == key) = true
    · have hxe : x = old := by
        simp [lookupEntry, List.find?, hx] at h
        exact h
      have hkey : x.key = key := by simpa using hx
      subst hxe
      have hrest : removeKey xs key = xs := by
        apply List.filter_eq_self.mpr
        intro y hy
        have hyk : y.key ≠ key := by
          rw [← hkey]
          intro heq
          exact hkeys.1 (heq ▸ List.mem_map_of_mem (fun e => e.key) hy)
        simpa using hyk
      have hxf : ((x.key != key) = false) := by simp [hkey]
      simp only [removeKey] at hrest ⊢
      rw [List.filter_cons, if_neg (by simp [hxf]), hrest]
      simp [sumSizes]
    · have h3 : ((x.key == key) = false) := by simpa using hx
      have hxs : lookupEntry xs key = some old := by
        simpa [lookupEntry, List.find?, h3] using h
      simp only [removeKey] at ih ⊢
      rw [List.filter_cons, if_pos (by simpa using h3)]
      simp only [sumSizes, List.map_cons, List.sum_cons] at ih ⊢
      rw [ih hkeys.2 hxs]
      ring

/- ## Claim theorems: cache -/

/-- C4 counterexample: reading a present, unexpired entry whose stored
checksum mismatches returns null and removes the entry, but the metrics
count the read as a hit, not a miss (missCount stays 0, hitCount becomes
1), contradicting the claim that the miss counter is incremented. -/
theorem integrity_mismatch_counterexample :
    (cacheGet 50 corruptState "k").1 = none ∧
    lookupEntry (cacheGet 50 corruptState "k").2.entries "k" = none ∧
    (cacheGet 50 corruptState "k").2.metrics.missCount = 0 ∧
    (cacheGet 50 corruptState "k").2.metrics.hitCount = 1 ∧
    (cacheGet 50 corruptState "k").2.metrics.evictionCount = 1 := by
  decide

/-- C4 (amended): with integrity checking enabled, a get on a present,
unexpired entry whose stored checksum mismatches the recomputed one returns
null and removes the entry — but the read is accounted as a hit (hit
counter incremented, miss counter unchanged) and the removal as an eviction
(eviction counter incremented), not as a miss. -/
theorem integrity_mismatch_spec (now : ℕ) (s : CacheState) (key cs : String)
    (entry : CacheEntry)
    (hlook : lookupEntry s.entries key = some entry)
    (hexp : isExpired now entry = false)
    (hint : s.config.integrityCheckEnabled = true)
    (hcs : entry.metadata.checksum = some cs)
    (hmismatch : generateChecksum entry.data ≠ cs) :
    (cacheGet now s key).1 = none ∧
    lookupEntry (cacheGet now s key).2.entries key = none ∧
    (cacheGet now s key).2.metrics.hitCount = s.metrics.hitCount + 1 ∧
    (cacheGet now s key).2.metrics.missCount = s.metrics.missCount ∧
    (cacheGet now s key).2.metrics.evictionCount = s.metrics.evictionCount + 1 ∧
    (cacheGet now s key).2.metrics.totalRequests = s.metrics.totalRequests + 1 := by
  have htouch := lookupEntry_updateEntryAccess now s.entries key
  rw [hlook, Option.map_some'] at htouch
  have hbne : ((generateChecksum entry.data != cs) = true) := by
    simpa using hmismatch
  simp only [cacheGet, accessCacheEntry, hlook, hexp, Bool.false_eq_true, if_false,
    htouch, hint, if_true, hcs, hbne, invalidateCacheEntry]
  simp [lookupEntry_removeKey]

/-- C5 counterexample: overwriting key "k" (2 bytes stored) with 3 bytes
leaves the aggregate at 5 while the entries sum to 3 — the replaced entry's
size is still counted, contradicting the claim. -/
theorem memory_overwrite_counterexample :
    (setCacheEntry 0 overwriteState overwritePayload).metrics.memoryUsage = 5 ∧
    sumSizes (setCacheEntry 0 overwriteState overwritePayload).entries = 3 := by
  decide

/-- C5 (amended): invalidate keeps the aggregate equal to the sum of stored
sizes, and so does a set on a key not already present; but a set that
overwrites an existing key adds the new size without subtracting the
replaced entry's size, so the aggregate exceeds the sum of the current
entries by exactly the replaced size. -/
theorem memory_accounting_spec (now : ℕ) (s : CacheState) (p : SetCachePayload) (key : String)
    (hkeys : (s.entries.map (fun e => e.key)).Nodup)
    (hinv : s.metrics.memoryUsage = sumSizes s.entries) :
    ((invalidateCacheEntry s key).metrics.memoryUsage
        = sumSizes (invalidateCacheEntry s key).entries) ∧
    (lookupEntry s.entries p.key = none →
      calculateDataSize p.data ≤ (s.config.strategies p.strategy).maxSize →
      (setCacheEntry now s p).metrics.memoryUsage = sumSizes (setCacheEntry now s p).entries) ∧
    (∀ old, lookupEntry s.entries p.key = some old →
      calculateDataSize p.data ≤ (s.config.strategies p.strategy).maxSize →
      (setCacheEntry now s p).metrics.memoryUsage
        = sumSizes (setCacheEntry now s p).entries + (old.metadata.size : ℤ)) := by
  refine ⟨?_, ?_, ?_⟩
  · cases hl : lookupEntry s.entries key with
    | none => simp only [invalidateCacheEntry, hl]; exact hinv
    | some old =>
      simp only [invalidateCacheEntry, hl]
      rw [sumSizes_removeKey s.entries key old hkeys hl, hinv]
  · intro hfresh hsize
    have hnot : ¬ ((s.config.strategies p.strategy).maxSize < calculateDataSize p.data) := by
      omega
    simp only [setCacheEntry]
    rw [if_neg hnot]
    rw [insertEntry_fresh s.entries _ hfresh, sumSizes_append, hinv]
  · intro old hold hsize
    have hnot : ¬ ((s.config.strategies p.strategy).maxSize < calculateDataSize p.data) := by
      omega
    simp only [setCacheEntry]
    rw [if_neg hnot]
    rw [sumSizes_insertEntry_overwrite s.entries _ old hold, hinv]
    ring

/-- Witness for the amended C5: overwriting the 2-byte entry with 3 bytes
verifies the aggregate equals the new sum plus the replaced 2 bytes. -/
theorem memory_accounting_spec_witness :
    ((overwriteState.entries.map (fun e => e.key)).Nodup ∧
      overwriteState.metrics.memoryUsage = sumSizes overwriteState.entries ∧
      lookupEntry overwriteState.entries overwritePayload.key = some overwrittenEntry ∧
      calculateDataSize overwritePayload.data ≤
        (overwriteState.config.strategies overwritePayload.strategy).maxSize) ∧
    (setCacheEntry 0 overwriteState overwritePayload).metrics.memoryUsage
      = sumSizes (setCacheEntry 0 overwriteState overwritePayload).entries
        + (overwrittenEntry.metadata.size : ℤ) := by
  refine ⟨⟨by decide, by decide, by decide, by decide⟩, ?_⟩
  exact (memory_accounting_spec 0 overwriteState overwritePayload "k"
    (by decide) (by decide)).2.2 overwrittenEntry (by decide) (by decide)

/-- C8: a set whose data exceeds the strategy's per-entry max size leaves
the whole cache state unchanged, and a subsequent get of that (previously
absent) key returns null. -/
theorem size_rejection_spec (now now2 : ℕ) (s : CacheState) (p : SetCachePayload)
    (hfresh : lookupEntry s.entries p.key = none)
    (hbig : (s.config.strategies p.strategy).maxSize < calculateDataSize p.data) :
    setCacheEntry now s p = s ∧
    (cacheGet now2 (setCacheEntry now s p) p.key).1 = none := by
  have hset : setCacheEntry now s p = s := by
    simp only [setCacheEntry]
    rw [if_pos hbig]
  refine ⟨hset, ?_⟩
  rw [hset]
  simp only [cacheGet, accessCacheEntry, hfresh]

/-- Witness for C8: a 2-byte payload against a 1-byte strategy cap. -/
theorem size_rejection_spec_witness :
    (lookupEntry tinyState.entries bigPayload.key = none ∧
      (tinyState.config.strategies bigPayload.strategy).maxSize
        < calculateDataSize bigPayload.data) ∧
    setCacheEntry 5 tinyState bigPayload = tinyState ∧
    (cacheGet 6 (setCacheEntry 5 tinyState bigPayload) bigPayload.key).1 = none := by
  have h := size_rejection_spec 5 6 tinyState bigPayload (by decide) (by decide)
  exact ⟨⟨by decide, by decide⟩, h.1, h.2⟩

/- ## Helper lemmas: eviction pass -/

/-- Sizes of a cons cell. -/
theorem sumSizes_cons (e : CacheEntry) (l : List CacheEntry) :
    sumSizes (e :: l) = (e.metadata.size : ℤ) + sumSizes l := by
  simp [sumSizes]

/-- The eviction comparator is total. -/
theorem entryLeB_total (now : ℕ) (a b : CacheEntry) :
    entryLeB now a b = true ∨ entryLeB now b a = true := by
  cases ha : isCriticalEntry a <;> cases hb : isCriticalEntry b <;>
    simp [entryLeB, ha, hb]
  exact le_total _ _

/-- The eviction comparator is transitive. -/
theorem entryLeB_trans (now : ℕ) (a b c : CacheEntry)
    (hab : entryLeB now a b = true) (hbc : entryLeB now b c = true) :
    entryLeB now a c = true := by
  cases ha : isCriticalEntry a <;> cases hb : isCriticalEntry b <;>
    cases hc : isCriticalEntry c <;>
    simp [entryLeB, ha, hb, hc] at hab hbc ⊢
  exact le_trans hab hbc

/-- Full characterization of the eviction loop: the evicted entries are
never CRITICAL, they form the initial prefix of the non-critical entries in
list order, the returned memory is the starting memory minus the evicted
sizes, the loop stops only at (or below) the target or after exhausting the
non-critical entries, and before each eviction the running memory was still
above the target. -/
theorem evictLoop_spec (target : ℚ) (l : List CacheEntry) : ∀ (cur : ℤ),
    (∀ e ∈ (evictLoop target cur l).2, isCriticalEntry e = false) ∧
    ((l.filter (fun e => !isCriticalEntry e)).take (evictLoop target cur l).2.length
        = (evictLoop target cur l).2) ∧
    ((evictLoop target cur l).1 = cur - sumSizes (evictLoop target cur l).2) ∧
    (((evictLoop target cur l).1 : ℚ) ≤ target ∨
      (evictLoop target cur l).2 = l.filter (fun e => !isCriticalEntry e)) ∧
    (∀ k, k < (evictLoop target cur l).2.length →
      target < ((cur - sumSizes ((evictLoop target cur l).2.take k) : ℤ) : ℚ)) := by
  induction l with
  | nil =>
    intro cur
    refine ⟨by simp [evictLoop], by simp [evictLoop], by simp [evictLoop, sumSizes],
      Or.inr (by simp [evictLoop]), by simp [evictLoop]⟩
  | cons e rest ih =>
    intro cur
    by_cases hstop : ((cur : ℚ) ≤ target)
    · simp only [evictLoop, if_pos hstop]
      exact ⟨by simp, rfl, by simp [sumSizes], Or.inl hstop, by simp⟩
    · by_cases hcrit : isCriticalEntry e = true
      · have hfe : ((!isCriticalEntry e) = false) := by simp [hcrit]
        simp only [evictLoop, if_neg hstop, hcrit, if_true]
        obtain ⟨ih1, ih2, ih3, ih4, ih5⟩ := ih cur
        rw [List.filter_cons, if_neg (by simp [hfe])]
        exact ⟨ih1, ih2, ih3, ih4, ih5⟩
      · have hcf : isCriticalEntry e = false := by simpa using hcrit
        have hfe : ((!isCriticalEntry e) = true) := by simp [hcf]
        simp only [evictLoop, if_neg hstop, hcf, Bool.false_eq_true, if_false]
        obtain ⟨ih1, ih2, ih3, ih4, ih5⟩ := ih (cur - (e.metadata.size : ℤ))
        rw [List.filter_cons, if_pos (by simp [hfe])]
        refine ⟨?_, ?_, ?_, ?_, ?_⟩
        · intro x hx
          rcases List.mem_cons.mp hx with rfl | hx
          · exact hcf
          · exact ih1 x hx
        · rw [List.length_cons, List.take_succ_cons, ih2]
        · rw [ih3, sumSizes_cons]
          ring
        · rcases ih4 with h | h
          · exact Or.inl h
          · exact Or.inr (by rw [h])
        · intro k hk
          cases k with
          | zero =>
            simp only [List.take_zero, sumSizes, List.map_nil, List.sum_nil, sub_zero]
            exact lt_of_not_le hstop
          | succ j =>
            have hj : j < (evictLoop target (cur - (e.metadata.size : ℤ)) rest).2.length := by
              simpa using hk
            have hlt := ih5 j hj
            rw [List.take_succ_cons, sumSizes_cons]
            have harith :
                cur - ((e.metadata.size : ℤ) +
                  sumSizes (((evictLoop target (cur - (e.metadata.size : ℤ)) rest).2).take j))
                = (cur - (e.metadata.size : ℤ)) -
                  sumSizes (((evictLoop target (cur - (e.metadata.size : ℤ)) rest).2).take j) := by
              ring
            rw [harith]
            exact hlt

/-- The comparator-sorted entry list is pairwise ordered. -/
theorem sortedForEviction_pairwise (now : ℕ) (s : CacheState) :
    List.Pairwise (fun a b => entryLeB now a b = true) (sortedForEviction now s) := by
  unfold sortedForEviction
  haveI : IsTotal CacheEntry (fun a b => entryLeB now a b = true) :=
    ⟨fun a b => entryLeB_total now a b⟩
  haveI : IsTrans CacheEntry (fun a b => entryLeB now a b = true) :=
    ⟨fun a b c => entryLeB_trans now a b c⟩
  exact List.sorted_insertionSort _ _

/-- The non-critical entries in comparator order ascend by score. -/
theorem sortedNonCritical_pairwise (now : ℕ) (s : CacheState) :
    List.Pairwise (fun a b => entryScore now a ≤ entryScore now b)
      (sortedNonCritical now s) := by
  unfold sortedNonCritical
  have hp := (sortedForEviction_pairwise now s).filter (fun e => !isCriticalEntry e)
  apply List.Pairwise.imp_of_mem ?_ hp
  intro a b ha hb hr
  have ha2 : isCriticalEntry a = false := by
    have := List.of_mem_filter ha
    simpa using this
  have hb2 : isCriticalEntry b = false := by
    have := List.of_mem_filter hb
    simpa using this
  simpa [entryLeB, ha2, hb2] using hr

/- ## Claim theorem: eviction pass (C6) -/

/-- C6: when the pass runs (usage above the ceiling) it never evicts a
CRITICAL-priority entry — every CRITICAL entry of the store survives; the
evicted entries are exactly an initial prefix of the non-critical entries
ordered by ascending score accessCount / (now - lastAccessed); eviction
stops as soon as usage is at or below 70 percent of the ceiling (or all
non-critical entries are gone), and before every single eviction the
running usage was still above that target.  The age hypothesis keeps the
rational-valued scores faithful to the JS float division. -/
theorem optimizeCache_eviction_spec (now : ℕ) (s : CacheState)
    (hkeys : (s.entries.map (fun e => e.key)).Nodup)
    (hover : (s.config.maxMemoryUsage : ℤ) < s.metrics.memoryUsage)
    (hages : ∀ e ∈ s.entries, e.metadata.lastAccessed < now) :
    (∀ e ∈ evictedEntries now s, isCriticalEntry e = false) ∧
    ((sortedNonCritical now s).take (evictedEntries now s).length = evictedEntries now s) ∧
    List.Pairwise (fun a b => entryScore now a ≤ entryScore now b) (sortedNonCritical now s) ∧
    (∀ e ∈ s.entries, isCriticalEntry e = true → e ∈ (optimizeCache now s).entries) ∧
    ((optimizeCache now s).metrics.memoryUsage
        = s.metrics.memoryUsage - sumSizes (evictedEntries now s)) ∧
    (((optimizeCache now s).metrics.memoryUsage : ℚ) ≤ evictionTarget s ∨
      evictedEntries now s = sortedNonCritical now s) ∧
    (∀ k, k < (evictedEntries now s).length →
      evictionTarget s < ((s.metrics.memoryUsage
        - sumSizes ((evictedEntries now s).take k) : ℤ) : ℚ)) := by
  obtain ⟨h1, h2, h3, h4, h5⟩ :=
    evictLoop_spec (evictionTarget s) (sortedForEviction now s) s.metrics.memoryUsage
  have hev : (evictLoop (evictionTarget s) s.metrics.memoryUsage (sortedForEviction now s)).2
      = evictedEntries now s := rfl
  have hfil : List.filter (fun e => !isCriticalEntry e) (sortedForEviction now s)
      = sortedNonCritical now s := rfl
  rw [hev] at h1 h2 h3 h4 h5
  rw [hfil] at h2 h4
  have hnot : ¬ (s.metrics.memoryUsage ≤ (s.config.maxMemoryUsage : ℤ)) := not_le.mpr hover
  have hmem : (optimizeCache now s).metrics.memoryUsage =
      (evictLoop (evictionTarget s) s.metrics.memoryUsage (sortedForEviction now s)).1 := by
    simp only [optimizeCache, if_neg hnot]
  refine ⟨h1, h2, sortedNonCritical_pairwise now s, ?_, ?_, ?_, h5⟩
  · intro e he hecrit
    simp only [optimizeCache, if_neg hnot, hev]
    apply List.mem_filter.mpr
    refine ⟨he, ?_⟩
    by_contra hcontra
    have hany : (evictedEntries now s).any (fun d => d.key == e.key) = true := by
      cases hT : (evictedEntries now s).any (fun d => d.key == e.key) with
      | false => exact absurd (by rw [hT]; rfl) hcontra
      | true => rfl
    obtain ⟨d, hd, hdk⟩ := List.any_eq_true.mp hany
    have hdkey : d.key = e.key := by simpa using hdk
    have hdnc : isCriticalEntry d = false := h1 d hd
    have hdmem : d ∈ s.entries := by
      have hd2 : d ∈ (sortedNonCritical now s) := by
        rw [← h2] at hd
        exact List.take_subset _ _ hd
      have hd3 : d ∈ sortedForEviction now s := List.mem_of_mem_filter hd2
      exact ((List.perm_insertionSort _ s.entries).mem_iff).mp hd3
    have hde : d = e := List.inj_on_of_nodup_map hkeys hdmem he hdkey
    rw [hde, hecrit] at hdnc
    exact Bool.true_eq_false.mp hdnc
  · rw [hmem, h3]
  · rcases h4 with h | h
    · exact Or.inl (by rw [hmem]; exact h)
    · exact Or.inr h

/-- Witness for C6 at a 12-byte store with a 10-byte ceiling: the CRITICAL
entry survives the pass. -/
theorem optimizeCache_eviction_spec_witness :
    ((evState.entries.map (fun e => e.key)).Nodup ∧
      (evState.config.maxMemoryUsage : ℤ) < evState.metrics.memoryUsage ∧
      (∀ e ∈ evState.entries, e.metadata.lastAccessed < 10)) ∧
    (∀ e ∈ evictedEntries 10 evState, isCriticalEntry e = false) ∧
    evEntryCrit ∈ (optimizeCache 10 evState).entries := by
  have h := optimizeCache_eviction_spec 10 evState (by decide) (by decide) (by decide)
  exact ⟨⟨by decide, by decide, by decide⟩, h.1,
    h.2.2.2.1 evEntryCrit (by decide) (by decide)⟩

/-- Witness for the amended C4 at the concrete corrupted entry. -/
theorem integrity_mismatch_spec_witness :
    (lookupEntry corruptState.entries "k" = some corruptEntry ∧
      isExpired 50 corruptEntry = false ∧
      corruptState.config.integrityCheckEnabled = true ∧
      corruptEntry.metadata.checksum = some "zz" ∧
      generateChecksum corruptEntry.data ≠ "zz") ∧
    (cacheGet 50 corruptState "k").1 = none ∧
    (cacheGet 50 corruptState "k").2.metrics.hitCount = corruptState.metrics.hitCount + 1 ∧
    (cacheGet 50 corruptState "k").2.metrics.missCount = corruptState.metrics.missCount := by
  have h := integrity_mismatch_spec 50 corruptState "k" "zz" corruptEntry
    (by decide) (by decide) (by decide) (by decide) (by decide)
  exact ⟨⟨by decide, by decide, by decide, by decide, by decide⟩, h.1, h.2.2.1, h.2.2.2.1⟩
